import Mathlib

/-!
Verification of `scripts/version_bump.py`.

Python strings are modelled as `List Char` (the script only manipulates
ASCII text; Python's `str.isdigit`, `str.lower`, `str.strip` and the regex
classes `\s`, `\d` are modelled on their ASCII behaviour).  Pure functions
of the script become Lean functions; the `assert` statements of the parsing
code become `Option`/`Except` failures; the file writes performed by `main`
become an explicit trace of write events.
-/

namespace VersionBump

/-- ASCII whitespace as matched by Python's `str.strip` and the regex class
`\s`: space, tab, newline, carriage return, vertical tab, form feed. -/
def isPySpace (c : Char) : Bool :=
  c == ' ' || c == '\t' || c == '\n' || c == '\r' || c == '\x0b' || c == '\x0c'

/-- Python `s.isdigit()` (ASCII scope): `s` is non-empty and every character
is a decimal digit. -/
def pyIsDigit (s : List Char) : Bool :=
  !s.isEmpty && s.all Char.isDigit

/-- Python `int(s)` on an all-digit string: fold the decimal digits. -/
def strToNat (s : List Char) : Nat :=
  s.foldl (fun a c => 10 * a + (c.toNat - 48)) 0

/-- The decimal digit character for `d < 10`. -/
def digitChar (d : Nat) : Char := Char.ofNat (48 + d)

/-- Decimal rendering of a natural number, fuel-indexed so that the
definition is structurally recursive (the fuel `n + 1` always suffices). -/
def natToStrAux : Nat → Nat → List Char
  | 0, _ => []
  | fuel + 1, n =>
    if n < 10 then [digitChar n]
    else natToStrAux fuel (n / 10) ++ [digitChar (n % 10)]

/-- Python `f"{n}"` for a non-negative integer: decimal digits, no sign,
no padding. -/
def natToStr (n : Nat) : List Char := natToStrAux (n + 1) n

/-- Python `s.split(".")`: split on every occurrence of the dot, keeping
empty segments; the empty string yields `[[]]`. -/
def splitOnDot : List Char → List (List Char)
  | [] => [[]]
  | c :: cs =>
    if c == '.' then [] :: splitOnDot cs
    else
      match splitOnDot cs with
      | [] => [[c]]
      | s :: ss => (c :: s) :: ss

/-- `class Version(NamedTuple)`: an immutable triple of non-negative
integers. -/
structure Version where
  major : Nat
  minor : Nat
  patch : Nat
deriving DecidableEq

/-- `parse_semver`: split on `.`; the two `assert` statements (exactly 3
segments, every segment `isdigit`) become `none`; otherwise build the
`Version` from the integer values of the segments. -/
def parse_semver (version : List Char) : Option Version :=
  match splitOnDot version with
  | [a, b, c] =>
    if pyIsDigit a && pyIsDigit b && pyIsDigit c then
      some ⟨strToNat a, strToNat b, strToNat c⟩
    else none
  | _ => none

/-- `compare_semver`: component-wise equality of two versions. -/
def compare_semver (v1 v2 : Version) : Bool :=
  v1.major == v2.major && v1.minor == v2.minor && v1.patch == v2.patch

/-- `semver_to_str`: renders `f"{v.major}.{v.minor}.{v.patch}"`. -/
def semver_to_str (v : Version) : List Char :=
  natToStr v.major ++ ('.' :: (natToStr v.minor ++ ('.' :: natToStr v.patch)))

/-- `bump_semver`: `major` resets minor and patch, `minor` resets patch,
and every other `bump_type` string falls through to the `else` branch,
which increments the patch component. -/
def bump_semver (version : Version) (bump_type : List Char) : List Char :=
  if bump_type = "major".toList then
    semver_to_str ⟨version.major + 1, 0, 0⟩
  else if bump_type = "minor".toList then
    semver_to_str ⟨version.major, version.minor + 1, 0⟩
  else
    semver_to_str ⟨version.major, version.minor, version.patch + 1⟩

/-- A JSON value, as produced by `json.load` on `package.json` (numbers are
modelled as integers; the script never inspects any value other than the
top-level `"version"` string, so values are otherwise opaque to it). -/
inductive JVal where
  | null : JVal
  | bool : Bool → JVal
  | num : Int → JVal
  | str : List Char → JVal
  | arr : List JVal → JVal
  | obj : List (List Char × JVal) → JVal

/-- A Python `dict` as an insertion-ordered association list (Python dicts
have unique keys and preserve insertion order). -/
def PyDict : Type := List (List Char × JVal)

/-- Python `d[k] = v`: overwrite the value of an existing key in place,
or append a new key at the end. -/
def pyDictSet : PyDict → List Char → JVal → PyDict
  | [], k, v => [(k, v)]
  | (k', v') :: rest, k, v =>
    if k' = k then (k, v) :: rest else (k', v') :: pyDictSet rest k v

/-- Python `d[k]` / `d.get(k)`: value of the first entry with the given
key. -/
def pyDictGet : PyDict → List Char → Option JVal
  | [], _ => none
  | (k', v') :: rest, k => if k' = k then some v' else pyDictGet rest k

/-- `new_version_to_json`: `data["version"] = new_version`, then the whole
structure is serialized back over the file.  The resulting structure is the
modelled value; serialization itself is formatting-only. -/
def new_version_to_json (data : PyDict) (new_version : List Char) : PyDict :=
  pyDictSet data ("version".toList) (JVal.str new_version)

/-! ### The TOML writer: `re.sub(r"^version\s*=\s*\"[^\"]+\"$", ..., count = 1, flags = re.MULTILINE)`

The pattern has no backtracking choice: `\s*` is a maximal whitespace run
followed by a mandatory non-whitespace literal, and `[^"]+` is a maximal
quote-free run followed by a mandatory quote.  Matching at one position is
therefore a deterministic scan, and `re.sub` with `count=1` replaces the
match at the leftmost position where the `^` anchor holds (the start of the
string, or any position just after a newline). -/

/-- Consume an exact literal; `none` if the input does not start with it. -/
def dropLit : List Char → List Char → Option (List Char)
  | [], s => some s
  | _ :: _, [] => none
  | p :: ps, c :: cs => if c == p then dropLit ps cs else none

/-- Consume `[^"]+"`: a non-empty maximal run of non-quote characters
(which may include newlines) followed by the closing quote. -/
def matchQuoted (s : List Char) : Option (List Char) :=
  let body := s.takeWhile (fun c => c != '\"')
  let rest := s.dropWhile (fun c => c != '\"')
  if body.isEmpty then none
  else
    match rest with
    | '\"' :: r => some r
    | _ => none

/-- Try the whole pattern `version\s*=\s*"[^"]+"$` at the current position;
on success return the input suffix left after the matched span. -/
def matchVerLine (s : List Char) : Option (List Char) :=
  match dropLit ("version".toList) s with
  | none => none
  | some s1 =>
    match dropLit ['='] (s1.dropWhile isPySpace) with
    | none => none
    | some s2 =>
      match dropLit ['\"'] (s2.dropWhile isPySpace) with
      | none => none
      | some s3 =>
        match matchQuoted s3 with
        | none => none
        | some s4 =>
          match s4 with
          | [] => some s4
          | '\n' :: _ => some s4
          | _ => none

/-- `re.sub(pattern, repl, s, count=1, flags=re.MULTILINE)` for the version
pattern: scan left to right, trying the pattern only where the multiline
`^` anchor holds; replace the first matched span with `repl`. -/
def reSubVersion (repl : List Char) : List Char → Bool → List Char
  | [], atStart =>
    if atStart then
      match matchVerLine [] with
      | some rest => repl ++ rest
      | none => []
    else []
  | c :: cs, atStart =>
    match (if atStart then matchVerLine (c :: cs) else none) with
    | some rest => repl ++ rest
    | none => c :: reSubVersion repl cs (c == '\n')

/-- `new_version_to_toml`: substitute the first line-anchored
`version = "..."` assignment with `version = "<new_version>"` and write the
result back; the returned list is the new file content. -/
def new_version_to_toml (content : List Char) (new_version : List Char) : List Char :=
  reSubVersion ("version = \"".toList ++ new_version ++ ['\"']) content true

/-- Locate the first multiline-anchored match of the version pattern:
returns the text before the match and the text after the matched span. -/
def findVerMatch : List Char → Bool → Option (List Char × List Char)
  | [], atStart =>
    if atStart then
      match matchVerLine [] with
      | some rest => some ([], rest)
      | none => none
    else none
  | c :: cs, atStart =>
    match (if atStart then matchVerLine (c :: cs) else none) with
    | some rest => some ([], rest)
    | none =>
      match findVerMatch cs (c == '\n') with
      | some pr => some (c :: pr.1, pr.2)
      | none => none

/-! ### The installer-script writer: Python `str.replace` -/

/-- Python `old in s`: `old` occurs as a contiguous substring of `s`. -/
def hasSub (old : List Char) : List Char → Bool
  | [] => old.isEmpty
  | c :: cs => old.isPrefixOf (c :: cs) || hasSub old cs

/-- Python `s.replace(old, new)` (all occurrences, scanning left to right,
non-overlapping), fuel-indexed for structural recursion; fuel
`s.length + 1` always suffices. -/
def pyReplaceAux : Nat → List Char → List Char → List Char → List Char
  | 0, _, _, _ => []
  | _ + 1, old, new, [] => if old.isEmpty then new else []
  | fuel + 1, old, new, c :: cs =>
    if !old.isEmpty && old.isPrefixOf (c :: cs) then
      new ++ pyReplaceAux fuel old new ((c :: cs).drop old.length)
    else
      (if old.isEmpty then new else []) ++ c :: pyReplaceAux fuel old new cs

/-- Python `s.replace(old, new)`. -/
def pyReplace (old new s : List Char) : List Char :=
  pyReplaceAux (s.length + 1) old new s

/-- The log line embedding a version:
`f"Installing and compiling rag-rs {version}"`. -/
def logLine (version : List Char) : List Char :=
  "Installing and compiling rag-rs ".toList ++ version

/-- The install command line embedding a version:
`f"cargo install rag-rs --vers {version}"`. -/
def instLine (version : List Char) : List Char :=
  "cargo install rag-rs --vers ".toList ++ version

/-- `new_version_to_pre_install_js`: replace the old log line with the new
one, then the old install line with the new one, and write the result back;
the returned list is the new file content. -/
def new_version_to_pre_install_js (content old_version new_version : List Char) : List Char :=
  pyReplace (instLine old_version) (instLine new_version)
    (pyReplace (logLine old_version) (logLine new_version) content)

/-! ### The interactive driver `main`

`main` reads `Cargo.toml` and `package.json` (modelled by the fields of
`ScriptState`), parses and compares the two version strings, then loops on
operator input until a valid bump class arrives, and finally performs the
three writes and exits with code 0.  The observable behaviour is modelled
as an `Except`: a fatal assertion produces an error (so no prompt, no
guidance message and no write has happened), and a normal run produces the
ordered trace of prompt / guidance / write events together with the exit
code passed to `sys.exit`. -/

/-- The data `main` has loaded before any parsing: the raw `Cargo.toml`
version string and file text, the parsed `package.json` structure, and the
`pre-install.js` file text. -/
structure ScriptState where
  vRust : List Char
  tomlContent : List Char
  jsonData : PyDict
  jsContent : List Char

/-- An observable event of a run of `main`, in chronological order: an
input prompt, the invalid-input guidance message, or an in-place file
rewrite carrying the new content. -/
inductive Ev where
  | promptEv : Ev
  | guidanceEv : Ev
  | writeJsonEv : PyDict → Ev
  | writeTomlEv : List Char → Ev
  | writeJsEv : List Char → Ev

/-- A fatal outcome of `main`: a failed `assert` in `parse_semver`, the
failed version-equality `assert`, or operator input exhausted while the
prompt loop is still rejecting (the real script would block forever or die
on end-of-file; it never writes in that case). -/
inductive MErr where
  | formatError : MErr
  | versionMismatch : MErr
  | noMoreInput : MErr
deriving DecidableEq

/-- Python `s.strip()` (ASCII whitespace): drop leading and trailing
whitespace. -/
def pyStrip (s : List Char) : List Char :=
  ((s.dropWhile isPySpace).reverse.dropWhile isPySpace).reverse

/-- `bump_type.lower().strip()`: lowercase, then strip. -/
def pyNorm (s : List Char) : List Char :=
  pyStrip (s.map Char.toLower)

/-- The membership test `bump_type in ["major", "minor", "patch"]`. -/
def validBump (s : List Char) : Bool :=
  s == "major".toList || s == "minor".toList || s == "patch".toList

/-- The `while True` input loop of `main`: each iteration prompts, reads
the next operator input and normalizes it; invalid input prints the
guidance message and loops; valid input triggers the three writes, in
order, and breaks out to `sys.exit(0)`. -/
def promptLoop (st : ScriptState) (semv_rust : Version) :
    List (List Char) → Except MErr (List Ev × Nat)
  | [] => .error .noMoreInput
  | inp :: rest =>
    let b := pyNorm inp
    if validBump b then
      let new_ver := bump_semver semv_rust b
      .ok ([.promptEv,
            .writeJsonEv (new_version_to_json st.jsonData new_ver),
            .writeTomlEv (new_version_to_toml st.tomlContent new_ver),
            .writeJsEv (new_version_to_pre_install_js st.jsContent st.vRust new_ver)], 0)
    else
      match promptLoop st semv_rust rest with
      | .error e => .error e
      | .ok (t, code) => .ok (.promptEv :: .guidanceEv :: t, code)

/-- `main`, given the loaded file data and the sequence of operator inputs:
parse both version strings, assert they are component-wise equal, then run
the prompt loop. -/
def mainRun (st : ScriptState) (v_js : List Char) (inputs : List (List Char)) :
    Except MErr (List Ev × Nat) :=
  match parse_semver st.vRust with
  | none => .error .formatError
  | some semv_rust =>
    match parse_semver v_js with
    | none => .error .formatError
    | some semv_js =>
      if compare_semver semv_rust semv_js then promptLoop st semv_rust inputs
      else .error .versionMismatch

/-- A concrete loaded state used by the witness theorems. -/
def exState : ScriptState where
  vRust := "1.2.3".toList
  tomlContent := "[package]\nname = \"rag-rs\"\nversion = \"1.2.3\"\n".toList
  jsonData :=
    [("name".toList, JVal.str ("rag-rs".toList)),
     ("version".toList, JVal.str ("1.2.3".toList)),
     ("license".toList, JVal.str ("MIT".toList))]
  jsContent :=
    "console.log(\"Installing and compiling rag-rs 1.2.3\");\nrun(\"cargo install rag-rs --vers 1.2.3\");\n".toList

example : natToStr 0 = ['0'] := by decide
example : natToStr 123 = ['1', '2', '3'] := by decide
example : splitOnDot "1.2.3".toList = [['1'], ['2'], ['3']] := by decide
example : parse_semver "1.2.3".toList = some ⟨1, 2, 3⟩ := by decide
example : parse_semver "1.2".toList = none := by decide
example : parse_semver "1..3".toList = none := by decide
example : parse_semver "1.2.3-alpha".toList = none := by decide
example : semver_to_str ⟨1, 20, 3⟩ = "1.20.3".toList := by decide
example : bump_semver ⟨1, 2, 3⟩ "minor".toList = "1.3.0".toList := by decide
example : bump_semver ⟨1, 2, 3⟩ "foo".toList = "1.2.4".toList := by decide
example :
    new_version_to_toml "[package]\nversion = \"1.2.3\"\n".toList "1.3.0".toList =
      "[package]\nversion = \"1.3.0\"\n".toList := by decide
example :
    new_version_to_toml "[package]\nversion = \"9.9.9\"\n".toList "1.3.0".toList =
      "[package]\nversion = \"1.3.0\"\n".toList := by decide
example :
    new_version_to_toml "x = \"1\"\n version = \"1.2.3\"\n".toList "1.3.0".toList =
      "x = \"1\"\n version = \"1.2.3\"\n".toList := by decide
example : pyReplace "ab".toList "X".toList "zababz".toList = "zXXz".toList := by decide
example : pyReplace "".toList "X".toList "ab".toList = "XaXbX".toList := by decide
example : hasSub "ab".toList "zab".toList = true := by decide
example : hasSub "ab".toList "za b".toList = false := by decide
example :
    new_version_to_pre_install_js
      ("console.log(\"Installing and compiling rag-rs 1.2.3\");\nrun(\"cargo install rag-rs --vers 1.2.3\");\n".toList)
      "1.2.3".toList "1.3.0".toList =
    ("console.log(\"Installing and compiling rag-rs 1.3.0\");\nrun(\"cargo install rag-rs --vers 1.3.0\");\n".toList) := by decide

/-! ### Decimal rendering lemmas -/

lemma digitChar_isDigit {d : Nat} (h : d < 10) : (digitChar d).isDigit = true := by
  interval_cases d <;> decide

lemma digitChar_toNat {d : Nat} (h : d < 10) : (digitChar d).toNat = 48 + d := by
  interval_cases d <;> decide

lemma strToNat_append_digit (l : List Char) (c : Char) :
    strToNat (l ++ [c]) = 10 * strToNat l + (c.toNat - 48) := by
  simp [strToNat, List.foldl_append]

lemma natToStrAux_ne_nil (fuel : Nat) :
    ∀ n, n < fuel → natToStrAux fuel n ≠ [] := by
  induction fuel with
  | zero => intro n hn; omega
  | succ f ih =>
    intro n hn
    by_cases h10 : n < 10
    · simp [natToStrAux, h10]
    · have hdiv : n / 10 < n := Nat.div_lt_self (by omega) (by omega)
      simp [natToStrAux, h10]

lemma natToStrAux_digits (fuel : Nat) :
    ∀ n, n < fuel → ∀ c ∈ natToStrAux fuel n, c.isDigit = true := by
  induction fuel with
  | zero => intro n hn; omega
  | succ f ih =>
    intro n hn c hc
    by_cases h10 : n < 10
    · simp [natToStrAux, h10] at hc
      subst hc
      exact digitChar_isDigit h10
    · have hdiv : n / 10 < n := Nat.div_lt_self (by omega) (by omega)
      simp [natToStrAux, h10] at hc
      rcases hc with hc | hc
      · exact ih (n / 10) (by omega) c hc
      · subst hc
        exact digitChar_isDigit (by omega)

lemma strToNat_natToStrAux (fuel : Nat) :
    ∀ n, n < fuel → strToNat (natToStrAux fuel n) = n := by
  induction fuel with
  | zero => intro n hn; omega
  | succ f ih =>
    intro n hn
    by_cases h10 : n < 10
    · simp [natToStrAux, h10, strToNat, digitChar_toNat h10]
    · have hdiv : n / 10 < n := Nat.div_lt_self (by omega) (by omega)
      have hmod : n % 10 < 10 := Nat.mod_lt _ (by omega)
      simp only [natToStrAux, h10, if_false]
      rw [strToNat_append_digit, ih (n / 10) (by omega), digitChar_toNat hmod]
      omega

lemma natToStr_ne_nil (n : Nat) : natToStr n ≠ [] :=
  natToStrAux_ne_nil (n + 1) n (Nat.lt_succ_self n)

lemma natToStr_digits (n : Nat) : ∀ c ∈ natToStr n, c.isDigit = true :=
  natToStrAux_digits (n + 1) n (Nat.lt_succ_self n)

lemma strToNat_natToStr (n : Nat) : strToNat (natToStr n) = n :=
  strToNat_natToStrAux (n + 1) n (Nat.lt_succ_self n)

lemma pyIsDigit_natToStr (n : Nat) : pyIsDigit (natToStr n) = true := by
  have h1 := natToStr_ne_nil n
  have h2 := natToStr_digits n
  simp [pyIsDigit, List.isEmpty_iff, h1, List.all_eq_true]
  intro c hc
  exact h2 c hc

lemma natToStr_noDot (n : Nat) : ∀ c ∈ natToStr n, c ≠ '.' := by
  intro c hc hdot
  have := natToStr_digits n c hc
  rw [hdot] at this
  exact absurd this (by decide)

/-! ### `splitOnDot` lemmas -/

lemma splitOnDot_ne_nil (l : List Char) : splitOnDot l ≠ [] := by
  cases l with
  | nil => simp [splitOnDot]
  | cons c cs =>
    simp only [splitOnDot]
    cases hc : c == '.'
    · cases h : splitOnDot cs <;> simp
    · simp

lemma splitOnDot_noDot (l : List Char) (h : ∀ c ∈ l, c ≠ '.') :
    splitOnDot l = [l] := by
  induction l with
  | nil => rfl
  | cons c cs ih =>
    have hc : (c == '.') = false := by
      simpa using h c (List.mem_cons_self c cs)
    simp only [splitOnDot, hc, Bool.false_eq_true, if_false]
    rw [ih (fun x hx => h x (List.mem_cons_of_mem _ hx))]

lemma splitOnDot_append (l r : List Char) (h : ∀ c ∈ l, c ≠ '.') :
    splitOnDot (l ++ '.' :: r) = l :: splitOnDot r := by
  induction l with
  | nil => simp [splitOnDot]
  | cons c cs ih =>
    have hc : (c == '.') = false := by
      simpa using h c (List.mem_cons_self c cs)
    have ih' := ih (fun x hx => h x (List.mem_cons_of_mem _ hx))
    simp only [List.cons_append, splitOnDot, hc, Bool.false_eq_true, if_false,
      List.append_eq]
    rw [ih']

lemma pyIsDigit_iff (s : List Char) :
    pyIsDigit s = true ↔ (s ≠ [] ∧ s.all Char.isDigit = true) := by
  simp [pyIsDigit, List.isEmpty_iff]

/-! ### Claim theorems: the semver model -/

/-- Claim C1: for every `Version v = (major, minor, patch)` of non-negative
integers, `bump(v, "patch")` returns the formatted string of
`(major, minor, patch+1)`, `bump(v, "minor")` the formatted string of
`(major, minor+1, 0)`, and `bump(v, "major")` the formatted string of
`(major+1, 0, 0)`; the function is pure and returns the string directly. -/
theorem claim_C1 (v : Version) :
    bump_semver v ("patch".toList) = semver_to_str ⟨v.major, v.minor, v.patch + 1⟩ ∧
    bump_semver v ("minor".toList) = semver_to_str ⟨v.major, v.minor + 1, 0⟩ ∧
    bump_semver v ("major".toList) = semver_to_str ⟨v.major + 1, 0, 0⟩ := by
  refine ⟨?_, ?_, ?_⟩ <;>
    · unfold bump_semver
      first
        | rw [if_pos (by decide)]
        | rw [if_neg (by decide), if_pos (by decide)]
        | rw [if_neg (by decide), if_neg (by decide)]

/-- Claim C10 (implicit): for every `Version v` and every bump-kind string
that is neither `"major"` nor `"minor"` — including strings outside the
documented set, such as `"foo"` — `bump_semver` falls through to the
`else` branch and returns the formatted string of
`(major, minor, patch+1)`; it never rejects an unknown kind. -/
theorem claim_C10 (v : Version) (k : List Char)
    (h1 : k ≠ "major".toList) (h2 : k ≠ "minor".toList) :
    bump_semver v k = semver_to_str ⟨v.major, v.minor, v.patch + 1⟩ := by
  unfold bump_semver
  rw [if_neg h1, if_neg h2]

/-- Witness for C10 at the concrete unknown kind `"foo"`. -/
theorem claim_C10_witness :
    "foo".toList ≠ "major".toList ∧ "foo".toList ≠ "minor".toList ∧
    bump_semver ⟨1, 2, 3⟩ ("foo".toList) = semver_to_str ⟨1, 2, 4⟩ :=
  ⟨by decide, by decide, claim_C10 ⟨1, 2, 3⟩ ("foo".toList) (by decide) (by decide)⟩

/-- Claim C2: for every `Version v` with non-negative integer components,
parsing the formatted string round-trips: `parse_semver (semver_to_str v)`
succeeds and equals `v` component-wise. -/
theorem claim_C2 (v : Version) :
    parse_semver (semver_to_str v) = some v := by
  have hsplit : splitOnDot (semver_to_str v) =
      [natToStr v.major, natToStr v.minor, natToStr v.patch] := by
    unfold semver_to_str
    rw [splitOnDot_append _ _ (natToStr_noDot v.major),
        splitOnDot_append _ _ (natToStr_noDot v.minor),
        splitOnDot_noDot _ (natToStr_noDot v.patch)]
  simp [parse_semver, hsplit, pyIsDigit_natToStr, strToNat_natToStr]

lemma parse_semver_isSome (s : List Char) :
    (parse_semver s).isSome =
      ((splitOnDot s).length == 3 && (splitOnDot s).all pyIsDigit) := by
  rcases h : splitOnDot s with _ | ⟨a, _ | ⟨b, _ | ⟨c, _ | ⟨d, tl⟩⟩⟩⟩
  · simp [parse_semver, h]
  · simp [parse_semver, h]
  · simp [parse_semver, h]
  · by_cases hd : (pyIsDigit a && pyIsDigit b && pyIsDigit c) = true
    · simp only [Bool.and_eq_true] at hd
      simp [parse_semver, h, hd.1.1, hd.1.2, hd.2]
    · simp only [Bool.not_eq_true, Bool.and_eq_false_iff] at hd
      rcases hd with (hd | hd) | hd <;> simp [parse_semver, h, hd]
  · simp [parse_semver, h]

/-- Claim C3: for every input string, `parse_semver` succeeds exactly when
splitting on `.` yields exactly 3 segments, each non-empty and composed
solely of decimal digits; any other shape fails (the failed `assert` of the
script), and in particular strings with pre-release tags or build metadata
fail. -/
theorem claim_C3 :
    (∀ s : List Char,
      (parse_semver s).isSome = true ↔
        ((splitOnDot s).length = 3 ∧
          ∀ seg ∈ splitOnDot s, seg ≠ [] ∧ seg.all Char.isDigit = true)) ∧
    parse_semver ("1.2.3-alpha".toList) = none ∧
    parse_semver ("1.2.3+build.2".toList) = none := by
  refine ⟨?_, by decide, by decide⟩
  intro s
  rw [parse_semver_isSome]
  simp [List.all_eq_true, pyIsDigit_iff]

/-- Witness for C3 at the concrete valid input `"1.2.3"`. -/
theorem claim_C3_witness : (parse_semver ("1.2.3".toList)).isSome = true :=
  (claim_C3.1 ("1.2.3".toList)).mpr (by decide)

/-! ### Claim theorems: the TOML-like writer -/

lemma reSubVersion_eq_findVerMatch (repl : List Char) :
    ∀ (s : List Char) (b : Bool),
      reSubVersion repl s b =
        (match findVerMatch s b with
         | none => s
         | some pr => pr.1 ++ (repl ++ pr.2)) := by
  intro s
  induction s with
  | nil =>
    intro b
    cases b <;> rfl
  | cons c cs ih =>
    intro b
    cases b with
    | false =>
      simp only [reSubVersion, findVerMatch, Bool.false_eq_true, if_false]
      rw [ih (c == '\n')]
      cases h : findVerMatch cs (c == '\n') with
      | none => simp [h]
      | some pr => simp [h]
    | true =>
      cases hm : matchVerLine (c :: cs) with
      | some rest =>
        simp [reSubVersion, findVerMatch, hm]
      | none =>
        simp only [reSubVersion, findVerMatch, hm, if_true]
        rw [ih (c == '\n')]
        cases h : findVerMatch cs (c == '\n') with
        | none => simp [h]
        | some pr => simp [h]

/-- Claim C4 counterexample: the content consists of the single line
`version = "9.9.9"`, the old version is `"1.2.3"`, so no line matches
`version = "1.2.3"` (the exact quoted old version does not even occur as a
substring); the claim then demands a silent no-op, but the writer rewrites
the line to `version = "2.0.0"` — the code's pattern accepts any quoted
string, it never looks at the old version. -/
theorem claim_C4_counterexample :
    hasSub ("version = \"1.2.3\"".toList) ("version = \"9.9.9\"\n".toList) = false ∧
    new_version_to_toml ("version = \"9.9.9\"\n".toList) ("2.0.0".toList) =
      ("version = \"2.0.0\"\n".toList) ∧
    ("version = \"2.0.0\"\n".toList) ≠ ("version = \"9.9.9\"\n".toList) :=
  ⟨by decide, by decide, by decide⟩

/-- Claim C4 (amended): the TOML-like writer performs a single substitution
at the first position where the multiline-anchored pattern
`version\s*=\s*"<nonempty quote-free string>"` followed by a line end
matches — regardless of whether the quoted string equals the old version —
replacing the matched span by `version = "<new>"`; if the pattern matches
at no line start, the content is returned unchanged. -/
theorem claim_C4 (content new_version : List Char) :
    new_version_to_toml content new_version =
      (match findVerMatch content true with
       | none => content
       | some pr =>
         pr.1 ++ (("version = \"".toList ++ new_version ++ ['\"']) ++ pr.2)) ∧
    (findVerMatch content true = none →
      new_version_to_toml content new_version = content) := by
  have h := reSubVersion_eq_findVerMatch
    ("version = \"".toList ++ new_version ++ ['\"']) content true
  constructor
  · rw [new_version_to_toml, h]
  · intro hnone
    rw [new_version_to_toml, h, hnone]

/-- Witness for C4's no-op direction: a file whose version line is
misspelled is returned unchanged. -/
theorem claim_C4_witness :
    new_version_to_toml ("ver = \"1.2.3\"\n".toList) ("9.9.9".toList) =
      ("ver = \"1.2.3\"\n".toList) :=
  (claim_C4 ("ver = \"1.2.3\"\n".toList) ("9.9.9".toList)).2 (by decide)

/-! ### Claim theorems: the JSON writer -/

lemma pyDictGet_set_same (d : PyDict) (k : List Char) (v : JVal) :
    pyDictGet (pyDictSet d k v) k = some v := by
  induction d with
  | nil => simp [pyDictSet, pyDictGet]
  | cons e rest ih =>
    by_cases h : e.1 = k
    · simp [pyDictSet, pyDictGet, h]
    · simp [pyDictSet, pyDictGet, h, ih]

lemma pyDictGet_set_other (d : PyDict) (k k2 : List Char) (v : JVal)
    (h : k ≠ k2) : pyDictGet (pyDictSet d k v) k2 = pyDictGet d k2 := by
  induction d with
  | nil => simp [pyDictSet, pyDictGet, h]
  | cons e rest ih =>
    by_cases he : e.1 = k
    · simp [pyDictSet, pyDictGet, he, h]
    · simp [pyDictSet, pyDictGet, he, ih]

/-- Claim C5: for every parsed JSON manifest structure and every new
version string, the JSON writer produces a structure in which the
`"version"` field equals the new version, and every other key present
before the write is present afterwards with an unchanged value. -/
theorem claim_C5 (d : PyDict) (new_version : List Char) :
    pyDictGet (new_version_to_json d new_version) ("version".toList) =
      some (JVal.str new_version) ∧
    ∀ k, k ≠ "version".toList →
      pyDictGet (new_version_to_json d new_version) k = pyDictGet d k :=
  ⟨pyDictGet_set_same d _ _,
   fun k hk => pyDictGet_set_other d _ k _ (fun he => hk he.symm)⟩

/-- Witness for C5 on a concrete three-field manifest. -/
theorem claim_C5_witness :
    pyDictGet (new_version_to_json exState.jsonData ("1.3.0".toList)) ("version".toList) =
      some (JVal.str ("1.3.0".toList)) ∧
    pyDictGet (new_version_to_json exState.jsonData ("1.3.0".toList)) ("name".toList) =
      pyDictGet exState.jsonData ("name".toList) :=
  ⟨(claim_C5 exState.jsonData ("1.3.0".toList)).1,
   (claim_C5 exState.jsonData ("1.3.0".toList)).2 ("name".toList) (by decide)⟩

/-! ### `pyReplace` lemmas and the installer-script writer -/

lemma isPrefixOf_append_self (l r : List Char) : l.isPrefixOf (l ++ r) = true := by
  induction l with
  | nil => simp [List.isPrefixOf]
  | cons c cs ih => simp [List.isPrefixOf, ih]

lemma pyReplaceAux_fuel_irrel (old new : List Char) :
    ∀ f1 s f2, s.length < f1 → s.length < f2 →
      pyReplaceAux f1 old new s = pyReplaceAux f2 old new s := by
  intro f1
  induction f1 with
  | zero => intro s f2 h1 _; omega
  | succ f ih =>
    intro s f2 h1 h2
    cases f2 with
    | zero => omega
    | succ g =>
      cases s with
      | nil => rfl
      | cons c cs =>
        simp only [pyReplaceAux]
        by_cases hm : (!old.isEmpty && old.isPrefixOf (c :: cs)) = true
        · simp only [hm, if_true]
          have hlen : ((c :: cs).drop old.length).length < f ∧
              ((c :: cs).drop old.length).length < g := by
            have hne : old.length ≥ 1 := by
              rcases old with _ | _
              · simp at hm
              · simp [List.length_cons]
            simp only [List.length_drop, List.length_cons] at *
            omega
          rw [ih _ g hlen.1 hlen.2]
        · simp only [hm, Bool.false_eq_true, if_false]
          have hlen : cs.length < f ∧ cs.length < g := by
            simp only [List.length_cons] at h1 h2
            omega
          rw [ih cs g hlen.1 hlen.2]

lemma pyReplace_cons_matching (old new : List Char) (c : Char) (cs : List Char)
    (hp : old.isPrefixOf (c :: cs) = true) (hne : old.isEmpty = false) :
    pyReplace old new (c :: cs) =
      new ++ pyReplace old new ((c :: cs).drop old.length) := by
  have hlen : old.length ≥ 1 := by
    rcases old with _ | _
    · simp at hne
    · simp [List.length_cons]
  show pyReplaceAux ((c :: cs).length + 1) old new (c :: cs) = _
  simp only [List.length_cons, pyReplaceAux, hne, hp, Bool.not_false, Bool.and_self,
    if_true, Bool.and_true, Bool.true_and]
  rw [pyReplaceAux_fuel_irrel old new (cs.length + 1) _ (((c :: cs).drop old.length).length + 1)
    (by simp only [List.length_drop, List.length_cons]; omega) (Nat.lt_succ_self _)]
  rfl

lemma pyReplace_cons_not_matching (old new : List Char) (c : Char) (cs : List Char)
    (hp : old.isPrefixOf (c :: cs) = false) :
    pyReplace old new (c :: cs) = c :: pyReplace old new cs := by
  have hne : old.isEmpty = false := by
    rcases old with _ | _
    · simp [List.isPrefixOf] at hp
    · rfl
  show pyReplaceAux ((c :: cs).length + 1) old new (c :: cs) = _
  simp only [List.length_cons, pyReplaceAux, hne, hp, Bool.and_false, if_false,
    Bool.false_eq_true, List.nil_append]
  rfl

lemma pyReplace_no_occurrence (old new : List Char) :
    ∀ s, hasSub old s = false → pyReplace old new s = s := by
  intro s
  induction s with
  | nil =>
    intro h
    simp only [hasSub] at h
    show pyReplaceAux 1 old new [] = []
    simp [pyReplaceAux, h]
  | cons c cs ih =>
    intro h
    simp only [hasSub, Bool.or_eq_false_iff] at h
    rw [pyReplace_cons_not_matching old new c cs h.1, ih h.2]

lemma pyReplace_at_first (old new : List Char) (hne : old.isEmpty = false) :
    ∀ a b, (∀ i, i < a.length →
        old.isPrefixOf ((a ++ (old ++ b)).drop i) = false) →
      pyReplace old new (a ++ (old ++ b)) = a ++ (new ++ pyReplace old new b) := by
  intro a
  induction a with
  | nil =>
    intro b _
    simp only [List.nil_append]
    rcases ho : old with _ | ⟨o, os⟩
    · rw [ho] at hne; simp at hne
    · rw [← ho]
      have hp : old.isPrefixOf (old ++ b) = true := isPrefixOf_append_self old b
      have : old ++ b = o :: (os ++ b) := by rw [ho]; rfl
      rw [this] at hp ⊢
      rw [pyReplace_cons_matching old new o (os ++ b) hp hne]
      have hdrop : (o :: (os ++ b)).drop old.length = b := by
        rw [ho]
        simp only [List.length_cons]
        exact List.drop_left os b ▸ (by simp [List.drop])
      rw [hdrop]
  | cons x a' ih =>
    intro b hocc
    have h0 : old.isPrefixOf (x :: (a' ++ (old ++ b))) = false := by
      have := hocc 0 (by simp)
      simpa using this
    have hshift : ∀ i, i < a'.length →
        old.isPrefixOf ((a' ++ (old ++ b)).drop i) = false := by
      intro i hi
      have := hocc (i + 1) (by simp only [List.length_cons]; omega)
      simpa [List.drop_succ_cons] using this
    rw [List.cons_append, pyReplace_cons_not_matching old new x _ h0, ih b hshift]
    rfl

lemma logLine_isEmpty (v : List Char) : (logLine v).isEmpty = false := rfl

lemma instLine_isEmpty (v : List Char) : (instLine v).isEmpty = false := rfl

/-- Claim C8: the installer-script writer replaces the two
version-embedding substrings — the log line
`Installing and compiling rag-rs <old>` and the install line
`cargo install rag-rs --vers <old>` — with the same lines built from the
new version, leaving all surrounding script content (`a`, `b`, `c`)
unchanged; and if the old substrings are not present verbatim in the file,
the resulting content equals the original (silent no-op). -/
theorem claim_C8 (content old_version new_version : List Char) :
    (hasSub (logLine old_version) content = false →
      hasSub (instLine old_version) content = false →
      new_version_to_pre_install_js content old_version new_version = content) ∧
    (∀ a b c : List Char,
      content = a ++ (logLine old_version ++ (b ++ (instLine old_version ++ c))) →
      (∀ i, i < a.length →
        (logLine old_version).isPrefixOf (content.drop i) = false) →
      hasSub (logLine old_version) (b ++ (instLine old_version ++ c)) = false →
      (∀ i, i < a.length + ((logLine new_version).length + b.length) →
        (instLine old_version).isPrefixOf
          (((a ++ (logLine new_version ++ b)) ++ (instLine old_version ++ c)).drop i)
            = false) →
      hasSub (instLine old_version) c = false →
      new_version_to_pre_install_js content old_version new_version =
        a ++ (logLine new_version ++ (b ++ (instLine new_version ++ c)))) := by
  constructor
  · intro h1 h2
    unfold new_version_to_pre_install_js
    rw [pyReplace_no_occurrence _ _ _ h1, pyReplace_no_occurrence _ _ _ h2]
  · intro a b c hcontent h1 h2 h3 h4
    subst hcontent
    unfold new_version_to_pre_install_js
    rw [pyReplace_at_first (logLine old_version) (logLine new_version)
      (logLine_isEmpty _) a (b ++ (instLine old_version ++ c)) h1]
    rw [pyReplace_no_occurrence _ _ _ h2]
    have hassoc :
        a ++ (logLine new_version ++ (b ++ (instLine old_version ++ c))) =
          (a ++ (logLine new_version ++ b)) ++ (instLine old_version ++ c) := by
      simp [List.append_assoc]
    rw [hassoc]
    rw [pyReplace_at_first (instLine old_version) (instLine new_version)
      (instLine_isEmpty _) (a ++ (logLine new_version ++ b)) c
      (fun i hi => h3 i (by simpa [List.length_append] using hi))]
    rw [pyReplace_no_occurrence _ _ _ h4]
    simp [List.append_assoc]

/-- Witness for C8: the concrete installer script of `exState`, whose log
line and install line each occur exactly once, is rewritten from `1.2.3` to
`1.3.0` with everything around the two lines untouched. -/
theorem claim_C8_witness :
    new_version_to_pre_install_js (exState.jsContent) ("1.2.3".toList) ("1.3.0".toList) =
      ("console.log(\"".toList ++
        (logLine ("1.3.0".toList) ++
          ("\");\nrun(\"".toList ++
            (instLine ("1.3.0".toList) ++ "\");\n".toList)))) :=
  (claim_C8 exState.jsContent ("1.2.3".toList) ("1.3.0".toList)).2
    ("console.log(\"".toList) ("\");\nrun(\"".toList) ("\");\n".toList)
    (by decide) (by decide) (by decide) (by decide) (by decide)

/-! ### Claim theorems: the interactive driver -/

/-- Claim C6: for every pair of version strings that parse to
component-wise unequal versions, `main` fails fatally with the uncaught
`assert` before prompting for a bump class, and no file is written: the run
produces the `versionMismatch` error and no event trace at all. -/
theorem claim_C6 (st : ScriptState) (v_js : List Char) (inputs : List (List Char))
    (a b : Version)
    (ha : parse_semver st.vRust = some a) (hb : parse_semver v_js = some b)
    (hne : compare_semver a b = false) :
    mainRun st v_js inputs = .error .versionMismatch := by
  simp [mainRun, ha, hb, hne]

/-- Witness for C6 at the mismatched pair `"1.2.3"` / `"1.2.4"`. -/
theorem claim_C6_witness :
    parse_semver (exState.vRust) = some ⟨1, 2, 3⟩ ∧
    parse_semver ("1.2.4".toList) = some ⟨1, 2, 4⟩ ∧
    compare_semver ⟨1, 2, 3⟩ ⟨1, 2, 4⟩ = false ∧
    mainRun exState ("1.2.4".toList) (["major".toList]) = .error .versionMismatch :=
  ⟨by decide, by decide, by decide,
   claim_C6 exState ("1.2.4".toList) (["major".toList]) ⟨1, 2, 3⟩ ⟨1, 2, 4⟩
     (by decide) (by decide) (by decide)⟩

/-- Claim C7: the driver normalizes operator input by lowercasing and
trimming, so any input normalizing to `"major"` behaves exactly like the
input `"major"`; an input that does not normalize to a valid bump class
prints the guidance message and returns to the prompt without any write;
and as long as only invalid inputs arrive, the run never reaches a write
at all. -/
theorem claim_C7 (st : ScriptState) (semv : Version) :
    (∀ inp rest, pyNorm inp = "major".toList →
      promptLoop st semv (inp :: rest) = promptLoop st semv ("major".toList :: rest)) ∧
    (∀ inp rest, validBump (pyNorm inp) = false →
      promptLoop st semv (inp :: rest) =
        (match promptLoop st semv rest with
         | .error e => .error e
         | .ok (t, code) => .ok (.promptEv :: .guidanceEv :: t, code))) ∧
    (∀ inputs, (∀ i ∈ inputs, validBump (pyNorm i) = false) →
      promptLoop st semv inputs = .error .noMoreInput) := by
  refine ⟨?_, ?_, ?_⟩
  · intro inp rest h
    have hm : pyNorm ("major".toList) = "major".toList := by decide
    simp only [promptLoop, h, hm]
  · intro inp rest h
    simp only [promptLoop, h, Bool.false_eq_true, if_false]
  · intro inputs h
    induction inputs with
    | nil => rfl
    | cons i rest ih =>
      have hi := h i (List.mem_cons_self i rest)
      have hrest := ih (fun x hx => h x (List.mem_cons_of_mem _ hx))
      simp only [promptLoop, hi, Bool.false_eq_true, if_false, hrest]

/-- Witness for C7: `" MAJOR "` behaves like `"major"`, and the invalid
input `"foo"` alone never reaches a write. -/
theorem claim_C7_witness :
    promptLoop exState ⟨1, 2, 3⟩ ([" MAJOR ".toList]) =
      promptLoop exState ⟨1, 2, 3⟩ (["major".toList]) ∧
    promptLoop exState ⟨1, 2, 3⟩ (["foo".toList]) = .error .noMoreInput :=
  ⟨(claim_C7 exState ⟨1, 2, 3⟩).1 (" MAJOR ".toList) [] (by decide),
   (claim_C7 exState ⟨1, 2, 3⟩).2.2 (["foo".toList]) (by decide)⟩

/-- Claim C9: on valid operator input, the driver computes the new version
from the TOML-sourced version and produces the write events for the JSON
manifest first, then the TOML-like manifest, then the installer script, in
that order, and terminates with exit code 0. -/
theorem claim_C9 (st : ScriptState) (v_js inp : List Char) (rest : List (List Char))
    (a b : Version)
    (ha : parse_semver st.vRust = some a) (hb : parse_semver v_js = some b)
    (heq : compare_semver a b = true) (hv : validBump (pyNorm inp) = true) :
    mainRun st v_js (inp :: rest) =
      .ok ([.promptEv,
            .writeJsonEv (new_version_to_json st.jsonData (bump_semver a (pyNorm inp))),
            .writeTomlEv (new_version_to_toml st.tomlContent (bump_semver a (pyNorm inp))),
            .writeJsEv (new_version_to_pre_install_js st.jsContent st.vRust
              (bump_semver a (pyNorm inp)))], 0) := by
  simp [mainRun, ha, hb, heq, promptLoop, hv]

set_option maxRecDepth 10000 in
/-- Witness for C9: a concrete `"minor"` bump of matching `"1.2.3"`
manifests, with the three written contents fully evaluated. -/
theorem claim_C9_witness :
    mainRun exState ("1.2.3".toList) (["minor".toList]) =
      .ok ([Ev.promptEv,
            Ev.writeJsonEv
              [("name".toList, JVal.str ("rag-rs".toList)),
               ("version".toList, JVal.str ("1.3.0".toList)),
               ("license".toList, JVal.str ("MIT".toList))],
            Ev.writeTomlEv ("[package]\nname = \"rag-rs\"\nversion = \"1.3.0\"\n".toList),
            Ev.writeJsEv
              ("console.log(\"Installing and compiling rag-rs 1.3.0\");\nrun(\"cargo install rag-rs --vers 1.3.0\");\n".toList)],
           0) := by
  rw [claim_C9 exState ("1.2.3".toList) ("minor".toList) [] ⟨1, 2, 3⟩ ⟨1, 2, 3⟩
    (by decide) (by decide) (by decide) (by decide)]
  rfl

end VersionBump
